import Mathlib

/-!
Verification development for the sticker/label composition engine of
`ruchitara.py` (a small inventory manager).  The engine is shallowly
embedded: strings are lists of characters, draw calls on the PIL canvas
are recorded as an ordered list of draw operations, and the grid sheet
tiler of the "Generate Stickers" handler is embedded as pure arithmetic
on tile positions.
-/

/-- Python strings are modelled as lists of characters. -/
abbrev Str := List Char

/-- Coerce a Lean string literal to the `Str` model. -/
def str (s : String) : Str := s.data

/-- Python `str.split()` with no argument splits on runs of whitespace
and drops empty tokens; these are the whitespace characters it strips. -/
def isPySpace (c : Char) : Bool :=
  c = ' ' || c = '\t' || c = '\n' || c = '\r' || c = '\x0b' || c = '\x0c'

/-- Accumulator worker for `pySplit`: `acc` holds the current word,
reversed. -/
def splitAux : Str → Str → List Str
  | [], acc => if acc = [] then [] else [acc.reverse]
  | c :: cs, acc =>
    if isPySpace c then
      (if acc = [] then splitAux cs [] else acc.reverse :: splitAux cs [])
    else
      splitAux cs (c :: acc)

/-- Python `s.split()` (no separator argument). -/
def pySplit (s : Str) : List Str := splitAux s []

/-- Python `' '.join(words)`. -/
def joinSpace : List Str → Str
  | [] => []
  | [t] => t
  | t :: t2 :: ts => t ++ ' ' :: joinSpace (t2 :: ts)

/-! ## Layout geometry (ruchitara.py lines 402-412) -/

/-- The `sizes` dict of `create_sticker`: preset name to pixel
dimensions at 300 DPI. -/
def sizes : List (Str × Nat × Nat) :=
  [(str "small", 600, 300), (str "medium", 900, 600), (str "large", 1200, 900)]

/-- `if size_preset in sizes: width, height = sizes[size_preset]
else: width, height = (900, 600)` (default to medium). -/
def resolveSize (size_preset : Str) : Nat × Nat :=
  match sizes.lookup size_preset with
  | some wh => wh
  | none => (900, 600)

/-! ## Fonts (ruchitara.py lines 418-426) -/

/-- The two truetype font files the renderer tries to load. -/
inductive FontPath where
  | dejavuBold
  | dejavuSans
deriving DecidableEq, Repr

/-- A resolved font: either a truetype font at a pixel size, or the
PIL built-in default font (`ImageFont.load_default()`). -/
inductive Font where
  | truetype (path : FontPath) (size : Nat)
  | default
deriving DecidableEq, Repr

/-- The try/except font block of `create_sticker`.  `fontsOk` is the
environment fact "the truetype assets load without raising".  The float
sizes `int(height*0.08)`, `int(height*0.06)`, `int(height*0.045)` are
written as exact natural divisions, which agree with the float
computation at all three preset heights (300, 600, 900). -/
def resolveFonts (fontsOk : Bool) (height : Nat) : Font × Font × Font :=
  if fontsOk then
    (Font.truetype FontPath.dejavuBold (height * 8 / 100),
     Font.truetype FontPath.dejavuSans (height * 6 / 100),
     Font.truetype FontPath.dejavuSans (height * 45 / 1000))
  else
    (Font.default, Font.default, Font.default)

/-! ## Data model -/

/-- The product record consumed by `create_sticker` (a dict row in the
source).  `price` is the decimal string interpolated for
`product['price']`; `image_data` is `none` when the photo blob is
absent or falsy, `some d` when present with `d` recording whether
`binary_to_image` decodes it. -/
structure Product where
  sku_code : Str
  name : Str
  weight : Str
  price : Str
  image_data : Option Bool
deriving DecidableEq, Repr

/-- Which label field a `draw.text` call renders. -/
inductive TextTag where
  | company
  | name
  | weight
  | price
  | expiry
  | sku
  | mfg
  | batch
deriving DecidableEq, Repr

/-- One recorded drawing operation on the sticker canvas, in the order
`create_sticker` performs them. -/
inductive DrawOp where
  | border
  | image
  | text (tag : TextTag) (content : Str) (font : Font)
  | qr (payload : Str)
deriving DecidableEq, Repr

/-- The rendered label: canvas dimensions plus the ordered draw calls. -/
structure Sticker where
  width : Nat
  height : Nat
  ops : List DrawOp
deriving DecidableEq, Repr

/-- The error taxonomy the specification assigns to the renderer. -/
inductive RenderError where
  | invalidProduct
  | invalidOptions
deriving DecidableEq, Repr

/-! ## The draw-call chunks of create_sticker, in source order -/

/-- Lines 435-445: paste the product photo when the blob is truthy and
decodes; any decode failure is swallowed by `try/except: pass`. -/
def imageOpsOf (image_data : Option Bool) : List DrawOp :=
  match image_data with
  | some decodes => if decodes then [DrawOp.image] else []
  | none => []

/-- Lines 451-463: the product name, word-wrapped at the word-count
midpoint when the name is longer than 30 characters. -/
def nameOpsOf (name : Str) (font_large : Font) : List DrawOp :=
  if 30 < name.length then
    [DrawOp.text TextTag.name
       (joinSpace ((pySplit name).take ((pySplit name).length / 2))) font_large,
     DrawOp.text TextTag.name
       (joinSpace ((pySplit name).drop ((pySplit name).length / 2))) font_large]
  else
    [DrawOp.text TextTag.name name font_large]

/-- Lines 470-473: the MRP price line, drawn only when requested.  The
`:.2f` float re-formatting is not modelled: `price` already stands for
the interpolated decimal string, and no verified property concerns the
price line's digits. -/
def priceOpsOf (include_price : Bool) (price : Str) (font_large : Font) : List DrawOp :=
  if include_price then
    [DrawOp.text TextTag.price (str "MRP ₹ " ++ price ++ str " INC.TAX") font_large]
  else []

/-- Lines 476-479: `if include_expiry and expiry_date:` — the expiry
line is drawn only when the flag is set and the date string is truthy
(not `None` and not empty). -/
def expiryOpsOf (include_expiry : Bool) (expiry_date : Option Str)
    (font_medium : Font) : List DrawOp :=
  if include_expiry then
    match expiry_date with
    | some d => if d = [] then [] else
        [DrawOp.text TextTag.expiry (str "EXPIRY " ++ d) font_medium]
    | none => []
  else []

/-- Line 487: the QR payload f-string
`"SKU:...\nName:...\nPrice:...\nWeight:..."`. -/
def qr_data (p : Product) : Str :=
  str "SKU:" ++ p.sku_code ++ str "\n" ++
  str "Name:" ++ p.name ++ str "\n" ++
  str "Price:" ++ p.price ++ str "\n" ++
  str "Weight:" ++ p.weight

/-- Lines 486-499: the QR code block. -/
def qrOpsOf (include_qr : Bool) (p : Product) : List DrawOp :=
  if include_qr then [DrawOp.qr (qr_data p)] else []

/-- `create_sticker` (ruchitara.py lines 396-509), embedded as a record
of the canvas size and the ordered draw calls.  `fontsOk` is the
environment fact consumed by the font try/except.  The return type
admits the specification's error taxonomy; the source function raises
no such error, so every input maps to `Except.ok`. -/
def create_sticker (fontsOk : Bool) (product : Product) (size_preset : Str)
    (include_qr include_price include_expiry : Bool)
    (expiry_date : Option Str) : Except RenderError Sticker :=
  let wh := resolveSize size_preset
  let fonts := resolveFonts fontsOk wh.2
  Except.ok
    { width := wh.1
      height := wh.2
      ops :=
        [DrawOp.border]
        ++ imageOpsOf product.image_data
        ++ [DrawOp.text TextTag.company (str "RUCHITARA FOODS") fonts.2.1]
        ++ nameOpsOf product.name fonts.1
        ++ [DrawOp.text TextTag.weight (str "Weight: " ++ product.weight) fonts.2.1]
        ++ priceOpsOf include_price product.price fonts.1
        ++ expiryOpsOf include_expiry expiry_date fonts.2.1
        ++ [DrawOp.text TextTag.sku (str "SKU: " ++ product.sku_code) fonts.2.2]
        ++ qrOpsOf include_qr product
        ++ [DrawOp.text TextTag.mfg (str "MFG 24/11/25") fonts.2.2,
            DrawOp.text TextTag.batch (str "BATCH: 0141125") fonts.2.2] }

/-! ## Observation functions on a rendered sticker -/

/-- The text content of a draw call carrying the given tag. -/
def textOfTag (tag : TextTag) : DrawOp → Option Str
  | DrawOp.text t c _ => if t = tag then some c else none
  | _ => none

/-- All text lines of a given field, in draw order. -/
def lineTexts (tag : TextTag) (s : Sticker) : List Str :=
  s.ops.filterMap (textOfTag tag)

/-- The payload of a QR draw call. -/
def qrOf : DrawOp → Option Str
  | DrawOp.qr d => some d
  | _ => none

/-- All QR payloads drawn on the sticker. -/
def qrPayloads (s : Sticker) : List Str := s.ops.filterMap qrOf

/-- The font of a text draw call. -/
def fontOf : DrawOp → Option Font
  | DrawOp.text _ _ f => some f
  | _ => none

/-- All fonts used by text draw calls. -/
def fontsUsed (s : Sticker) : List Font := s.ops.filterMap fontOf

/-- Whether a draw call pastes the product photo. -/
def isImageOp : DrawOp → Bool
  | DrawOp.image => true
  | _ => false

/-- All photo-paste operations of the sticker. -/
def imagePastes (s : Sticker) : List DrawOp := s.ops.filter isImageOp

/-- Extract the rendered sticker from a render result. -/
def stickerOrEmpty : Except RenderError Sticker → Sticker
  | Except.ok s => s
  | Except.error _ => { width := 0, height := 0, ops := [] }

/-! ## Sheet tiler (ruchitara.py lines 1170-1190, Generate Stickers handler) -/

/-- `cols = 3  # 3 stickers per row` (line 1173). -/
def sheetCols : Nat := 3

/-- `margin = 50` (line 1177). -/
def sheetMargin : Nat := 50

/-- `rows = (num_stickers + cols - 1) // cols` (line 1174). -/
def sheetRows (num_stickers : Nat) : Nat :=
  (num_stickers + sheetCols - 1) / sheetCols

/-- Paste position of tile `i` (0-indexed), lines 1184-1187:
`col = i % cols`, `row = i // cols`,
`x = margin + col*(w+margin)`, `y = margin + row*(h+margin)`. -/
def pastePos (w h i : Nat) : Nat × Nat :=
  (sheetMargin + (i % sheetCols) * (w + sheetMargin),
   sheetMargin + (i / sheetCols) * (h + sheetMargin))

/-- A tiled sheet: its pixel dimensions and the paste position of each
tile, in paste order. -/
structure Sheet where
  width : Nat
  height : Nat
  pastes : List (Nat × Nat)
deriving DecidableEq, Repr

/-- Lines 1176-1188: sheet dimensions and the paste loop. -/
def makeSheet (w h num_stickers : Nat) : Sheet :=
  { width := w * sheetCols + sheetMargin * (sheetCols + 1)
    height := h * sheetRows num_stickers + sheetMargin * (sheetRows num_stickers + 1)
    pastes := (List.range num_stickers).map (pastePos w h) }

/-- The final image produced by the Generate Stickers handler: the
single label, or a tiled sheet. -/
inductive OutputImage where
  | single (label : Sticker)
  | tiled (sheet : Sheet)
deriving DecidableEq, Repr

/-- Lines 1171-1190: `if num_stickers > 1:` build a sheet and replace
the sticker by it; otherwise the single label is kept unchanged. -/
def generateStickers (label : Sticker) (num_stickers : Nat) : OutputImage :=
  if num_stickers > 1 then
    OutputImage.tiled (makeSheet label.width label.height num_stickers)
  else
    OutputImage.single label

/-- Pixel dimensions of the final image. -/
def outputDims : OutputImage → Nat × Nat
  | OutputImage.single l => (l.width, l.height)
  | OutputImage.tiled s => (s.width, s.height)

/-- Pixel `p` lies in the `w × h` bounding box pasted at `pos`. -/
def inTile (w h : Nat) (pos p : Nat × Nat) : Prop :=
  pos.1 ≤ p.1 ∧ p.1 < pos.1 + w ∧ pos.2 ≤ p.2 ∧ p.2 < pos.2 + h

/-! ## Concrete records used to instantiate theorems -/

/-- A catalog product with a short (≤ 30 character) name. -/
def sampleProduct : Product :=
  { sku_code := str "210610", name := str "Dosa Batter",
    weight := str "500g", price := str "50", image_data := none }

/-- A catalog product whose 39-character name word-wraps. -/
def longNameProduct : Product :=
  { sku_code := str "210616", name := str "Foxtail Millet Dosa Batter (Korra Dosa)",
    weight := str "500g", price := str "55", image_data := none }

/-- A product whose 34-character name contains no whitespace. -/
def noSpaceNameProduct : Product :=
  { sku_code := str "910100", name := str "Supercalifragilisticexpialidocious",
    weight := str "100g", price := str "70", image_data := none }

/-- A product with an empty name (and otherwise ordinary fields). -/
def emptyNameProduct : Product :=
  { sku_code := str "210610", name := [],
    weight := str "500g", price := str "50", image_data := none }

/-! ## Lemmas about Python split/join -/

lemma splitAux_append_word (t : Str) (ht : ∀ c ∈ t, isPySpace c = false) :
    ∀ (s acc : Str), splitAux (t ++ s) acc = splitAux s (t.reverse ++ acc) := by
  induction t with
  | nil => intro s acc; simp
  | cons c t ih =>
    intro s acc
    have hc : isPySpace c = false := ht c (List.mem_cons_self c t)
    have ht' : ∀ d ∈ t, isPySpace d = false :=
      fun d hd => ht d (List.mem_cons_of_mem c hd)
    simp [splitAux, hc, ih ht', List.reverse_cons, List.append_assoc]

lemma splitAux_space (s acc : Str) :
    splitAux (' ' :: s) acc =
      if acc = [] then splitAux s [] else acc.reverse :: splitAux s [] := by
  have h : isPySpace ' ' = true := by decide
  simp [splitAux, h]

lemma pySplit_nil : pySplit [] = [] := rfl

lemma pySplit_single (t : Str) (h0 : t ≠ [])
    (hs : ∀ c ∈ t, isPySpace c = false) : pySplit t = [t] := by
  have h := splitAux_append_word t hs [] []
  rw [List.append_nil] at h
  rw [pySplit, h, splitAux]
  simp [h0]

/-- Every token produced by `splitAux` is non-empty and free of
whitespace, provided the running accumulator is. -/
lemma splitAux_tokens (s : Str) :
    ∀ (acc : Str), (∀ c ∈ acc, isPySpace c = false) →
      ∀ t ∈ splitAux s acc, t ≠ [] ∧ ∀ c ∈ t, isPySpace c = false := by
  induction s with
  | nil =>
    intro acc hacc t ht
    rw [splitAux] at ht
    by_cases h0 : acc = []
    · rw [if_pos h0] at ht; exact absurd ht (List.not_mem_nil t)
    · rw [if_neg h0] at ht
      rcases List.mem_singleton.mp ht with rfl
      refine ⟨?_, ?_⟩
      · simpa using h0
      · intro c hc; exact hacc c (List.mem_reverse.mp hc)
  | cons c s ih =>
    intro acc hacc t ht
    rw [splitAux] at ht
    by_cases hc : isPySpace c = true
    · rw [if_pos hc] at ht
      by_cases h0 : acc = []
      · rw [if_pos h0] at ht
        exact ih [] (by intro d hd; exact absurd hd (List.not_mem_nil d)) t ht
      · rw [if_neg h0] at ht
        rcases List.mem_cons.mp ht with rfl | ht'
        · refine ⟨?_, ?_⟩
          · simpa using h0
          · intro d hd; exact hacc d (List.mem_reverse.mp hd)
        · exact ih [] (by intro d hd; exact absurd hd (List.not_mem_nil d)) t ht'
    · rw [if_neg hc] at ht
      have hc' : isPySpace c = false := Bool.not_eq_true _ ▸ Bool.eq_false_iff.mpr hc
      refine ih (c :: acc) ?_ t ht
      intro d hd
      rcases List.mem_cons.mp hd with rfl | hd'
      · exact hc'
      · exact hacc d hd'

/-- Tokens of `pySplit` are non-empty and whitespace-free. -/
lemma pySplit_tokens (s : Str) :
    ∀ t ∈ pySplit s, t ≠ [] ∧ ∀ c ∈ t, isPySpace c = false :=
  splitAux_tokens s [] (fun d hd => absurd hd (List.not_mem_nil d))

/-- Round trip: joining good tokens with single spaces and re-splitting
recovers the token list. -/
lemma pySplit_joinSpace (ts : List Str)
    (h : ∀ t ∈ ts, t ≠ [] ∧ ∀ c ∈ t, isPySpace c = false) :
    pySplit (joinSpace ts) = ts := by
  induction ts with
  | nil => rfl
  | cons t ts ih =>
    cases ts with
    | nil =>
      have ht := h t (List.mem_cons_self t [])
      exact pySplit_single t ht.1 ht.2
    | cons t2 ts2 =>
      have ht := h t (List.mem_cons_self t _)
      have hrest : ∀ u ∈ t2 :: ts2, u ≠ [] ∧ ∀ c ∈ u, isPySpace c = false :=
        fun u hu => h u (List.mem_cons_of_mem t hu)
      have hrev : t.reverse ≠ [] := by simpa using ht.1
      rw [joinSpace, pySplit, splitAux_append_word t ht.2, List.append_nil,
        splitAux_space, if_neg hrev, List.reverse_reverse]
      rw [show splitAux (joinSpace (t2 :: ts2)) [] = pySplit (joinSpace (t2 :: ts2)) from rfl,
        ih hrest]

/-! ## Chunk computation lemmas for the observation functions -/

lemma filterMap_textOfTag_imageOps (tag : TextTag) (img : Option Bool) :
    (imageOpsOf img).filterMap (textOfTag tag) = [] := by
  cases img with
  | none => rfl
  | some d => cases d <;> rfl

lemma filterMap_textOfTag_nameOps (tag : TextTag) (h : tag ≠ TextTag.name)
    (nm : Str) (f : Font) :
    (nameOpsOf nm f).filterMap (textOfTag tag) = [] := by
  simp only [nameOpsOf]
  split <;> simp [textOfTag, Ne.symm h]

lemma filterMap_textOfTag_nameOps_name (nm : Str) (f : Font) :
    (nameOpsOf nm f).filterMap (textOfTag TextTag.name) =
      if 30 < nm.length then
        [joinSpace ((pySplit nm).take ((pySplit nm).length / 2)),
         joinSpace ((pySplit nm).drop ((pySplit nm).length / 2))]
      else [nm] := by
  simp only [nameOpsOf]
  split <;> simp [textOfTag]

lemma filterMap_textOfTag_priceOps (tag : TextTag) (h : tag ≠ TextTag.price)
    (ip : Bool) (pr : Str) (f : Font) :
    (priceOpsOf ip pr f).filterMap (textOfTag tag) = [] := by
  cases ip <;> simp [priceOpsOf, textOfTag, Ne.symm h]

lemma filterMap_textOfTag_expiryOps (tag : TextTag) (h : tag ≠ TextTag.expiry)
    (ie : Bool) (ed : Option Str) (f : Font) :
    (expiryOpsOf ie ed f).filterMap (textOfTag tag) = [] := by
  cases ie
  · rfl
  · rcases ed with _ | d
    · rfl
    · simp only [expiryOpsOf]
      split <;> simp [textOfTag, Ne.symm h]

lemma filterMap_textOfTag_expiryOps_none (ie : Bool) (f : Font) :
    (expiryOpsOf ie none f).filterMap (textOfTag TextTag.expiry) = [] := by
  cases ie <;> rfl

lemma filterMap_textOfTag_qrOps (tag : TextTag) (iq : Bool) (p : Product) :
    (qrOpsOf iq p).filterMap (textOfTag tag) = [] := by
  cases iq <;> rfl

lemma filterMap_qrOf_imageOps (img : Option Bool) :
    (imageOpsOf img).filterMap qrOf = [] := by
  cases img with
  | none => rfl
  | some d => cases d <;> rfl

lemma filterMap_qrOf_nameOps (nm : Str) (f : Font) :
    (nameOpsOf nm f).filterMap qrOf = [] := by
  simp only [nameOpsOf]
  split <;> rfl

lemma filterMap_qrOf_priceOps (ip : Bool) (pr : Str) (f : Font) :
    (priceOpsOf ip pr f).filterMap qrOf = [] := by
  cases ip <;> rfl

lemma filterMap_qrOf_expiryOps (ie : Bool) (ed : Option Str) (f : Font) :
    (expiryOpsOf ie ed f).filterMap qrOf = [] := by
  cases ie
  · rfl
  · rcases ed with _ | d
    · rfl
    · by_cases hd : d = [] <;> simp [expiryOpsOf, hd, qrOf]

lemma filterMap_qrOf_qrOps (iq : Bool) (p : Product) :
    (qrOpsOf iq p).filterMap qrOf = if iq then [qr_data p] else [] := by
  cases iq <;> rfl

lemma filterMap_fontOf_imageOps (img : Option Bool) :
    (imageOpsOf img).filterMap fontOf = [] := by
  cases img with
  | none => rfl
  | some d => cases d <;> rfl

lemma mem_fontOf_nameOps (nm : Str) (f g : Font)
    (hg : g ∈ (nameOpsOf nm f).filterMap fontOf) : g = f := by
  simp only [nameOpsOf] at hg
  split at hg <;> simp [fontOf] at hg <;> tauto

lemma mem_fontOf_priceOps (ip : Bool) (pr : Str) (f g : Font)
    (hg : g ∈ (priceOpsOf ip pr f).filterMap fontOf) : g = f := by
  cases ip <;> simp [priceOpsOf, fontOf] at hg
  exact hg

lemma mem_fontOf_expiryOps (ie : Bool) (ed : Option Str) (f g : Font)
    (hg : g ∈ (expiryOpsOf ie ed f).filterMap fontOf) : g = f := by
  cases ie
  · simp [expiryOpsOf] at hg
  · rcases ed with _ | d
    · simp [expiryOpsOf] at hg
    · by_cases hd : d = []
      · simp [expiryOpsOf, hd] at hg
      · simp [expiryOpsOf, hd, fontOf] at hg
        exact hg

lemma filterMap_fontOf_qrOps (iq : Bool) (p : Product) :
    (qrOpsOf iq p).filterMap fontOf = [] := by
  cases iq <;> rfl

lemma filter_isImageOp_imageOps (img : Option Bool) :
    (imageOpsOf img).filter isImageOp = imageOpsOf img := by
  cases img with
  | none => rfl
  | some d => cases d <;> rfl

lemma filter_isImageOp_nameOps (nm : Str) (f : Font) :
    (nameOpsOf nm f).filter isImageOp = [] := by
  simp only [nameOpsOf]
  split <;> rfl

lemma filter_isImageOp_priceOps (ip : Bool) (pr : Str) (f : Font) :
    (priceOpsOf ip pr f).filter isImageOp = [] := by
  cases ip <;> rfl

lemma filter_isImageOp_expiryOps (ie : Bool) (ed : Option Str) (f : Font) :
    (expiryOpsOf ie ed f).filter isImageOp = [] := by
  cases ie
  · rfl
  · rcases ed with _ | d
    · rfl
    · by_cases hd : d = [] <;> simp [expiryOpsOf, hd, isImageOp]

lemma filter_isImageOp_qrOps (iq : Bool) (p : Product) :
    (qrOpsOf iq p).filter isImageOp = [] := by
  cases iq <;> rfl

/-! ## Tiling geometry lemmas -/

/-- Two distinct grid slots along one axis never overlap: slot `a` ends
(margin included) before slot `b` starts. -/
lemma slot_no_overlap (size a b x : Nat) (hab : a < b)
    (h2 : x < sheetMargin + a * (size + sheetMargin) + size)
    (h3 : sheetMargin + b * (size + sheetMargin) ≤ x) : False := by
  have h : (a + 1) * (size + sheetMargin) ≤ b * (size + sheetMargin) :=
    Nat.mul_le_mul_right _ hab
  have key : sheetMargin + a * (size + sheetMargin) + size + sheetMargin
      ≤ sheetMargin + b * (size + sheetMargin) := by
    calc sheetMargin + a * (size + sheetMargin) + size + sheetMargin
        = sheetMargin + (a + 1) * (size + sheetMargin) := by ring
      _ ≤ sheetMargin + b * (size + sheetMargin) := Nat.add_le_add_left h _
  have hx : sheetMargin + a * (size + sheetMargin) + size ≤ x :=
    le_trans (le_trans (Nat.le_add_right _ _) key) h3
  exact absurd h2 (not_lt.mpr hx)

/-- Distinct tiles pasted by the sheet loop have disjoint bounding
boxes. -/
lemma pastePos_disjoint (w hh i j : Nat) (hij : i ≠ j) (p : Nat × Nat) :
    ¬ (inTile w hh (pastePos w hh i) p ∧ inTile w hh (pastePos w hh j) p) := by
  rintro ⟨⟨hi1, hi2, hi3, hi4⟩, ⟨hj1, hj2, hj3, hj4⟩⟩
  simp only [pastePos] at hi1 hi2 hi3 hi4 hj1 hj2 hj3 hj4
  by_cases hcol : i % sheetCols = j % sheetCols
  · have hrow : i / sheetCols ≠ j / sheetCols := by
      intro hdiv
      exact hij (by
        rw [← Nat.div_add_mod i sheetCols, ← Nat.div_add_mod j sheetCols, hcol, hdiv])
    rcases Nat.lt_or_ge (i / sheetCols) (j / sheetCols) with hlt | hge
    · exact slot_no_overlap hh (i / sheetCols) (j / sheetCols) p.2 hlt hi4 hj3
    · have hlt : j / sheetCols < i / sheetCols := lt_of_le_of_ne hge (Ne.symm hrow)
      exact slot_no_overlap hh (j / sheetCols) (i / sheetCols) p.2 hlt hj4 hi3
  · rcases Nat.lt_or_ge (i % sheetCols) (j % sheetCols) with hlt | hge
    · exact slot_no_overlap w (i % sheetCols) (j % sheetCols) p.1 hlt hi2 hj1
    · have hlt : j % sheetCols < i % sheetCols := lt_of_le_of_ne hge (Ne.symm hcol)
      exact slot_no_overlap w (j % sheetCols) (i % sheetCols) p.1 hlt hj2 hi1

/-! ## Claim theorems -/

/-- C4: the size-preset resolution maps `small` to `(600, 300)`,
`medium` to `(900, 600)`, `large` to `(1200, 900)`, and every other
preset string falls back to the medium pair `(900, 600)` rather than
erroring. -/
theorem size_preset_resolution :
    resolveSize (str "small") = (600, 300) ∧
    resolveSize (str "medium") = (900, 600) ∧
    resolveSize (str "large") = (1200, 900) ∧
    ∀ s : Str, s ≠ str "small" → s ≠ str "medium" → s ≠ str "large" →
      resolveSize s = (900, 600) := by
  refine ⟨by decide, by decide, by decide, ?_⟩
  intro s h1 h2 h3
  have e1 : (s == str "small") = false := beq_eq_false_iff_ne.mpr h1
  have e2 : (s == str "medium") = false := beq_eq_false_iff_ne.mpr h2
  have e3 : (s == str "large") = false := beq_eq_false_iff_ne.mpr h3
  simp [resolveSize, sizes, List.lookup, e1, e2, e3]

/-- Witness for C4: the unrecognized preset string `"custom"` resolves
to the medium pair. -/
theorem size_preset_resolution_witness :
    resolveSize (str "custom") = (900, 600) :=
  size_preset_resolution.2.2.2 (str "custom") (by decide) (by decide) (by decide)

/-- C5: a copy count of 1 bypasses the sheet tiler entirely: the output
image is the single rendered label unchanged, and its pixel dimensions
are exactly the label's dimensions. -/
theorem single_copy_bypasses_tiling (label : Sticker) :
    generateStickers label 1 = OutputImage.single label ∧
    outputDims (generateStickers label 1) = (label.width, label.height) := by
  constructor <;> rfl

/-- C3: for every copy count in [1, 50] the sheet tiler uses 3 columns,
`ceil(count/3)` rows and a uniform margin of 50; the sheet dimensions
are `cols*w + m*(cols+1)` by `rows*h + m*(rows+1)`; tile `i` is pasted
at `(m + (i mod 3)*(w+m), m + (i div 3)*(h+m))`; for `count = 7` there
are 3 rows and tile 6 sits at row 2, column 0; and no two tile bounding
boxes overlap. -/
theorem sheet_tiling_layout (w hh count : Nat) (hc1 : 1 ≤ count) (hc2 : count ≤ 50) :
    sheetCols = 3 ∧ sheetMargin = 50 ∧
    (makeSheet w hh count).width = 3 * w + 50 * (3 + 1) ∧
    (makeSheet w hh count).height = sheetRows count * hh + 50 * (sheetRows count + 1) ∧
    (count ≤ 3 * sheetRows count ∧ 3 * sheetRows count < count + 3) ∧
    (∀ i, i < count → (makeSheet w hh count).pastes[i]? =
        some (50 + (i % 3) * (w + 50), 50 + (i / 3) * (hh + 50))) ∧
    (count = 7 → sheetRows count = 3 ∧ 6 / 3 = 2 ∧ 6 % 3 = 0) ∧
    (∀ i j, i < count → j < count → i ≠ j → ∀ p : Nat × Nat,
        ¬ (inTile w hh (pastePos w hh i) p ∧ inTile w hh (pastePos w hh j) p)) := by
  refine ⟨rfl, rfl, ?_, ?_, ?_, ?_, ?_, ?_⟩
  · simp [makeSheet, sheetCols, sheetMargin]; ring
  · simp [makeSheet, sheetCols, sheetMargin]; ring
  · constructor
    · show count ≤ 3 * ((count + sheetCols - 1) / sheetCols)
      simp only [sheetCols]
      omega
    · show 3 * ((count + sheetCols - 1) / sheetCols) < count + 3
      simp only [sheetCols]
      omega
  · intro i hi
    simp [makeSheet, pastePos, sheetCols, sheetMargin, hi]
  · intro h7
    subst h7
    exact ⟨by decide, by decide, by decide⟩
  · intro i j _ _ hij p
    exact pastePos_disjoint w hh i j hij p

/-- Witness for C3: the layout facts instantiated at the medium label
size (600 wide, 300 high — width/height roles are generic) and 7
copies. -/
theorem sheet_tiling_layout_witness :
    sheetCols = 3 ∧ sheetMargin = 50 ∧
    (makeSheet 600 300 7).width = 3 * 600 + 50 * (3 + 1) ∧
    (makeSheet 600 300 7).height = sheetRows 7 * 300 + 50 * (sheetRows 7 + 1) ∧
    (7 ≤ 3 * sheetRows 7 ∧ 3 * sheetRows 7 < 7 + 3) ∧
    (∀ i, i < 7 → (makeSheet 600 300 7).pastes[i]? =
        some (50 + (i % 3) * (600 + 50), 50 + (i / 3) * (300 + 50))) ∧
    (7 = 7 → sheetRows 7 = 3 ∧ 6 / 3 = 2 ∧ 6 % 3 = 0) ∧
    (∀ i j, i < 7 → j < 7 → i ≠ j → ∀ p : Nat × Nat,
        ¬ (inTile 600 300 (pastePos 600 300 i) p ∧ inTile 600 300 (pastePos 600 300 j) p)) :=
  sheet_tiling_layout 600 300 7 (by decide) (by decide)

lemma fontOf_nameOps_replicate (nm : Str) (f : Font) :
    ∃ n, (nameOpsOf nm f).filterMap fontOf = List.replicate n f := by
  simp only [nameOpsOf]
  split
  · exact ⟨2, rfl⟩
  · exact ⟨1, rfl⟩

lemma fontOf_priceOps_replicate (ip : Bool) (pr : Str) (f : Font) :
    ∃ n, (priceOpsOf ip pr f).filterMap fontOf = List.replicate n f := by
  cases ip
  · exact ⟨0, rfl⟩
  · exact ⟨1, rfl⟩

lemma fontOf_expiryOps_replicate (ie : Bool) (ed : Option Str) (f : Font) :
    ∃ n, (expiryOpsOf ie ed f).filterMap fontOf = List.replicate n f := by
  cases ie
  · exact ⟨0, rfl⟩
  · rcases ed with _ | d
    · exact ⟨0, rfl⟩
    · by_cases hd : d = []
      · exact ⟨0, by simp [expiryOpsOf, hd]⟩
      · exact ⟨1, by simp [expiryOpsOf, hd, fontOf]⟩

/-- C1: with `include_qr` set, the QR payload drawn on the sticker is
exactly the newline-joined string
`SKU:{sku}\nName:{name}\nPrice:{price}\nWeight:{weight}`, in that field
order, for every product with non-empty sku, name, price and weight. -/
theorem qr_payload_exact (fontsOk : Bool) (p : Product) (size_preset : Str)
    (ip ie : Bool) (ed : Option Str) (st : Sticker)
    (hsku : p.sku_code ≠ []) (hname : p.name ≠ []) (hprice : p.price ≠ [])
    (hweight : p.weight ≠ [])
    (hok : create_sticker fontsOk p size_preset true ip ie ed = Except.ok st) :
    qrPayloads st =
      [str "SKU:" ++ p.sku_code ++ str "\n" ++ str "Name:" ++ p.name ++ str "\n" ++
       str "Price:" ++ p.price ++ str "\n" ++ str "Weight:" ++ p.weight] := by
  simp only [create_sticker, Except.ok.injEq] at hok
  subst hok
  simp [qrPayloads, List.filterMap_append, qrOf, filterMap_qrOf_imageOps,
    filterMap_qrOf_nameOps, filterMap_qrOf_priceOps, filterMap_qrOf_expiryOps,
    filterMap_qrOf_qrOps, qr_data]

/-- Witness for C1: the QR payload of the rendered sample product. -/
theorem qr_payload_exact_witness :
    qrPayloads (stickerOrEmpty (create_sticker true sampleProduct (str "medium")
        true true true (some (str "01/01/26")))) =
      [str "SKU:" ++ sampleProduct.sku_code ++ str "\n" ++
       str "Name:" ++ sampleProduct.name ++ str "\n" ++
       str "Price:" ++ sampleProduct.price ++ str "\n" ++
       str "Weight:" ++ sampleProduct.weight] :=
  qr_payload_exact true sampleProduct (str "medium") true true
    (some (str "01/01/26"))
    (stickerOrEmpty (create_sticker true sampleProduct (str "medium")
      true true true (some (str "01/01/26"))))
    (by decide) (by decide) (by decide) (by decide) rfl


/-- The name lines drawn by `create_sticker`, computed in closed form:
one line for short names, the two midpoint-split lines for long ones. -/
lemma lineTexts_name_eq (fontsOk : Bool) (p : Product) (size_preset : Str)
    (iq ip ie : Bool) (ed : Option Str) (st : Sticker)
    (hok : create_sticker fontsOk p size_preset iq ip ie ed = Except.ok st) :
    lineTexts TextTag.name st =
      if 30 < p.name.length then
        [joinSpace ((pySplit p.name).take ((pySplit p.name).length / 2)),
         joinSpace ((pySplit p.name).drop ((pySplit p.name).length / 2))]
      else [p.name] := by
  simp only [create_sticker, Except.ok.injEq] at hok
  subst hok
  simp [lineTexts, List.filterMap_append, textOfTag,
    filterMap_textOfTag_imageOps, filterMap_textOfTag_nameOps_name,
    filterMap_textOfTag_priceOps, filterMap_textOfTag_expiryOps,
    filterMap_textOfTag_qrOps]

/-- C2: a name of at most 30 characters is rendered as exactly one name
line equal to the name; a longer name is rendered as exactly two lines,
line 1 the space-join of the first `floor(wordCount/2)` words and line 2
the space-join of the rest, and re-splitting the two lines into words
and concatenating reconstructs the original word sequence exactly. -/
theorem name_wrap (fontsOk : Bool) (p : Product) (size_preset : Str)
    (iq ip ie : Bool) (ed : Option Str) (st : Sticker)
    (hok : create_sticker fontsOk p size_preset iq ip ie ed = Except.ok st) :
    (p.name.length ≤ 30 → lineTexts TextTag.name st = [p.name]) ∧
    (30 < p.name.length →
      lineTexts TextTag.name st =
        [joinSpace ((pySplit p.name).take ((pySplit p.name).length / 2)),
         joinSpace ((pySplit p.name).drop ((pySplit p.name).length / 2))] ∧
      pySplit (joinSpace ((pySplit p.name).take ((pySplit p.name).length / 2))) ++
        pySplit (joinSpace ((pySplit p.name).drop ((pySplit p.name).length / 2))) =
        pySplit p.name) := by
  have hcompute := lineTexts_name_eq fontsOk p size_preset iq ip ie ed st hok
  constructor
  · intro hle
    rw [hcompute, if_neg (Nat.not_lt.mpr hle)]
  · intro hgt
    have words := pySplit_tokens p.name
    refine ⟨by rw [hcompute, if_pos hgt], ?_⟩
    have htake : ∀ t ∈ (pySplit p.name).take ((pySplit p.name).length / 2),
        t ≠ [] ∧ ∀ c ∈ t, isPySpace c = false :=
      fun t ht => words t (List.mem_of_mem_take ht)
    have hdrop : ∀ t ∈ (pySplit p.name).drop ((pySplit p.name).length / 2),
        t ≠ [] ∧ ∀ c ∈ t, isPySpace c = false :=
      fun t ht => words t (List.mem_of_mem_drop ht)
    rw [pySplit_joinSpace _ htake, pySplit_joinSpace _ hdrop,
      List.take_append_drop]

/-- Witness for C2: the 39-character catalog name wraps into two lines
whose words rejoin to the original word sequence. -/
theorem name_wrap_witness :
    (longNameProduct.name.length ≤ 30 →
      lineTexts TextTag.name (stickerOrEmpty (create_sticker true longNameProduct
        (str "medium") true true true (some (str "01/01/26")))) =
        [longNameProduct.name]) ∧
    (30 < longNameProduct.name.length →
      lineTexts TextTag.name (stickerOrEmpty (create_sticker true longNameProduct
        (str "medium") true true true (some (str "01/01/26")))) =
        [joinSpace ((pySplit longNameProduct.name).take
            ((pySplit longNameProduct.name).length / 2)),
         joinSpace ((pySplit longNameProduct.name).drop
            ((pySplit longNameProduct.name).length / 2))] ∧
      pySplit (joinSpace ((pySplit longNameProduct.name).take
          ((pySplit longNameProduct.name).length / 2))) ++
        pySplit (joinSpace ((pySplit longNameProduct.name).drop
          ((pySplit longNameProduct.name).length / 2))) =
        pySplit longNameProduct.name) :=
  name_wrap true longNameProduct (str "medium") true true true
    (some (str "01/01/26"))
    (stickerOrEmpty (create_sticker true longNameProduct (str "medium")
      true true true (some (str "01/01/26")))) rfl

/-- C10: a name longer than 30 characters containing no whitespace is a
single word, so the midpoint split takes `words[:0]`: the first rendered
name line is the empty string, the second is the entire name, and the
rejoined word sequence still equals the original. -/
theorem single_word_name_wrap (fontsOk : Bool) (p : Product) (size_preset : Str)
    (iq ip ie : Bool) (ed : Option Str) (st : Sticker)
    (hlen : 30 < p.name.length)
    (hsp : ∀ c ∈ p.name, isPySpace c = false)
    (hok : create_sticker fontsOk p size_preset iq ip ie ed = Except.ok st) :
    lineTexts TextTag.name st = [[], p.name] ∧
    pySplit ([] : Str) ++ pySplit p.name = pySplit p.name := by
  have hne : p.name ≠ [] := by
    intro h0
    rw [h0] at hlen
    simp at hlen
  have hone : pySplit p.name = [p.name] := pySplit_single p.name hne hsp
  have hcompute := lineTexts_name_eq fontsOk p size_preset iq ip ie ed st hok
  refine ⟨?_, by simp [pySplit_nil]⟩
  rw [hcompute, if_pos hlen, hone]
  simp [joinSpace]

/-- Witness for C10: a 34-character single-word name renders as an
empty first line and the full name as the second line. -/
theorem single_word_name_wrap_witness :
    lineTexts TextTag.name (stickerOrEmpty (create_sticker true noSpaceNameProduct
      (str "small") true true true (some (str "01/01/26")))) =
      [[], noSpaceNameProduct.name] ∧
    pySplit ([] : Str) ++ pySplit noSpaceNameProduct.name =
      pySplit noSpaceNameProduct.name :=
  single_word_name_wrap true noSpaceNameProduct (str "small") true true true
    (some (str "01/01/26"))
    (stickerOrEmpty (create_sticker true noSpaceNameProduct (str "small")
      true true true (some (str "01/01/26"))))
    (by decide) (by decide) rfl

/-- C6 counterexample: with `include_expiry = true` and the expiry date
absent (`none`), `create_sticker` does not fail with `InvalidOptions`:
on a concrete product it returns a successful render. -/
theorem expiry_missing_counterexample :
    create_sticker true sampleProduct (str "medium") true true true none ≠
      Except.error RenderError.invalidOptions ∧
    (create_sticker true sampleProduct (str "medium") true true true none).isOk
      = true := by
  have hok : create_sticker true sampleProduct (str "medium") true true true none =
      Except.ok (stickerOrEmpty
        (create_sticker true sampleProduct (str "medium") true true true none)) := rfl
  refine ⟨?_, rfl⟩
  rw [hok]
  intro h
  exact Except.noConfusion h

/-- C6 amended: when `include_expiry` is true and the expiry date is
`None`, `create_sticker` does not fail: it completes the render and
silently omits the expiry line (`if include_expiry and expiry_date:`
is false). -/
theorem expiry_missing_skips_line (fontsOk : Bool) (p : Product)
    (size_preset : Str) (iq ip : Bool) :
    ∃ st, create_sticker fontsOk p size_preset iq ip true none = Except.ok st ∧
      lineTexts TextTag.expiry st = [] := by
  refine ⟨_, rfl, ?_⟩
  simp [lineTexts, List.filterMap_append, textOfTag,
    filterMap_textOfTag_imageOps, filterMap_textOfTag_nameOps,
    filterMap_textOfTag_priceOps, filterMap_textOfTag_expiryOps_none,
    filterMap_textOfTag_qrOps]

/-- C7 counterexample: on a concrete product with an empty name,
`create_sticker` does not fail with `InvalidProduct`: it returns a
successful render. -/
theorem empty_name_counterexample :
    create_sticker true emptyNameProduct (str "medium") true true true
        (some (str "01/01/26")) ≠
      Except.error RenderError.invalidProduct ∧
    (create_sticker true emptyNameProduct (str "medium") true true true
        (some (str "01/01/26"))).isOk = true := by
  have hok : create_sticker true emptyNameProduct (str "medium") true true true
      (some (str "01/01/26")) =
      Except.ok (stickerOrEmpty (create_sticker true emptyNameProduct
        (str "medium") true true true (some (str "01/01/26")))) := rfl
  refine ⟨?_, rfl⟩
  rw [hok]
  intro h
  exact Except.noConfusion h

/-- C7 amended: `create_sticker` performs no emptiness validation on
name or sku: for every product — including one with an empty name or
sku — it returns a complete render, with the SKU line drawn and the
canvas at the resolved preset dimensions; no `InvalidProduct` failure
exists in the code. -/
theorem no_product_validation (fontsOk : Bool) (p : Product) (size_preset : Str)
    (iq ip ie : Bool) (ed : Option Str) :
    ∃ st, create_sticker fontsOk p size_preset iq ip ie ed = Except.ok st ∧
      lineTexts TextTag.sku st = [str "SKU: " ++ p.sku_code] ∧
      st.width = (resolveSize size_preset).1 ∧
      st.height = (resolveSize size_preset).2 := by
  refine ⟨_, rfl, ?_, rfl, rfl⟩
  simp [lineTexts, List.filterMap_append, textOfTag,
    filterMap_textOfTag_imageOps, filterMap_textOfTag_nameOps,
    filterMap_textOfTag_priceOps, filterMap_textOfTag_expiryOps,
    filterMap_textOfTag_qrOps]

/-- C8: when the product photo is absent or present but undecodable,
`create_sticker` does not fail: the render completes without any
photo-paste operation and the canvas has exactly the resolved preset
dimensions. -/
theorem photo_degrades_gracefully (fontsOk : Bool) (p : Product)
    (size_preset : Str) (iq ip ie : Bool) (ed : Option Str) (st : Sticker)
    (himg : p.image_data = none ∨ p.image_data = some false)
    (hok : create_sticker fontsOk p size_preset iq ip ie ed = Except.ok st) :
    (create_sticker fontsOk p size_preset iq ip ie ed).isOk = true ∧
    st.width = (resolveSize size_preset).1 ∧
    st.height = (resolveSize size_preset).2 ∧
    imagePastes st = [] := by
  have hchunk : imageOpsOf p.image_data = [] := by
    rcases himg with h | h <;> simp [imageOpsOf, h]
  simp only [create_sticker, Except.ok.injEq] at hok
  subst hok
  refine ⟨rfl, rfl, rfl, ?_⟩
  simp [imagePastes, List.filter_append, hchunk, isImageOp,
    filter_isImageOp_nameOps, filter_isImageOp_priceOps,
    filter_isImageOp_expiryOps, filter_isImageOp_qrOps]

/-- Witness for C8: the sample product (photo absent) renders at the
medium preset dimensions with no photo-paste operation. -/
theorem photo_degrades_gracefully_witness :
    (create_sticker true sampleProduct (str "medium") true true true
        (some (str "01/01/26"))).isOk = true ∧
    (stickerOrEmpty (create_sticker true sampleProduct (str "medium") true true
        true (some (str "01/01/26")))).width = (resolveSize (str "medium")).1 ∧
    (stickerOrEmpty (create_sticker true sampleProduct (str "medium") true true
        true (some (str "01/01/26")))).height = (resolveSize (str "medium")).2 ∧
    imagePastes (stickerOrEmpty (create_sticker true sampleProduct (str "medium")
        true true true (some (str "01/01/26")))) = [] :=
  photo_degrades_gracefully true sampleProduct (str "medium") true true true
    (some (str "01/01/26"))
    (stickerOrEmpty (create_sticker true sampleProduct (str "medium")
      true true true (some (str "01/01/26"))))
    (Or.inl rfl) rfl

/-- C9: when the truetype font assets fail to load, `create_sticker`
falls back to the built-in default font for all three font slots, still
completes the render, and every text draw call uses the default font —
the render never errors due to missing font assets. -/
theorem font_fallback (p : Product) (size_preset : Str) (iq ip ie : Bool)
    (ed : Option Str) :
    (∀ ht : Nat, resolveFonts false ht = (Font.default, Font.default, Font.default)) ∧
    ∃ st, create_sticker false p size_preset iq ip ie ed = Except.ok st ∧
      ∀ f ∈ fontsUsed st, f = Font.default := by
  refine ⟨fun ht => rfl, _, rfl, ?_⟩
  obtain ⟨n1, hn1⟩ := fontOf_nameOps_replicate p.name Font.default
  obtain ⟨n2, hn2⟩ := fontOf_priceOps_replicate ip p.price Font.default
  obtain ⟨n3, hn3⟩ := fontOf_expiryOps_replicate ie ed Font.default
  intro f hf
  simp only [fontsUsed, resolveFonts, Bool.false_eq_true, if_false,
    List.filterMap_append, List.filterMap_cons, List.filterMap_nil, fontOf,
    hn1, hn2, hn3, filterMap_fontOf_imageOps, filterMap_fontOf_qrOps,
    List.mem_append, List.mem_replicate, List.mem_cons,
    List.not_mem_nil, or_false, false_or] at hf
  tauto
